import Mathlib

/-!
Verification of the tourism-platform aggregation layer.

This file gives a shallow embedding of the provider clients and request
handlers (`src/lib/amadeus-flights.ts`, `src/lib/db-transport.ts`,
`src/pages/api/connections.ts`, `src/pages/api/flights/search.ts`,
`src/pages/api/transport/departures.ts`) and proves the specified
properties about them.

Modelling conventions:
* JavaScript strings are Lean `String`s; `toLowerCase`/`toUpperCase` map
  each character to a character list, covering ASCII, the German letters
  (including the special expansion ß → "SS") and every other character
  whose JS case image consists solely of ASCII letters; all remaining
  characters are modelled as case-invariant, which is observationally
  equivalent for every use in this program (see `jsCharUpper`).
* JS object-literal property reads `tbl[key]` traverse the prototype
  chain: a read misses the own entries and then yields the inherited
  `Object.prototype` member for its property name (`jsPropLookup`,
  returning a `JsVal` that is either a string or such a leaked member).
* JavaScript `null`/`undefined` values are modelled as `Option.none`;
  JS truthiness of an optional string (`!x`) is `optFalsy`, and of a
  possibly-leaked value `jsValTruthy`/`jsOptTruthy`.
* Timestamps are integers (milliseconds since epoch, the value
  `new Date(s).getTime()` yields for the ISO strings the providers send).
* Outbound HTTP calls are oracles passed as function arguments; a handler
  result records whether such a call was issued.
* `Math.round(num/den)` for integer `num` and positive even `den` is
  `mathRoundDiv num den` (exact rational rounding, half away from minus
  infinity, matching JS `Math.round`).
-/

namespace DZT

/-! ## JavaScript string primitives -/

/-- Per-character model of JS `toLowerCase`.  Covers ASCII, the German
letters, and every other character whose JS lowercase image contains an
ASCII letter or a letter of the lookup tables: İ (U+0130) expands to
"i" + combining dot above, the Kelvin sign K (U+212A) maps to "k", the
Angstrom sign Å (U+212B) to "å", and ẞ (U+1E9E) to "ß".  All remaining
characters map to themselves; their real images contain no character of
any table key, so misses stay misses. -/
def jsCharLower (c : Char) : List Char :=
  if 'A' ≤ c ∧ c ≤ 'Z' then [Char.ofNat (c.toNat + 32)]
  else if c = 'Ä' then ['ä']
  else if c = 'Ö' then ['ö']
  else if c = 'Ü' then ['ü']
  else if c = 'İ' then ['i', Char.ofNat 0x0307]
  else if c.toNat = 0x212A then ['k']
  else if c.toNat = 0x212B then ['å']
  else if c.toNat = 0x1E9E then ['ß']
  else [c]

/-- Per-character model of JS `toUpperCase`.  Covers ASCII, the German
letters, and every character whose JS uppercase image consists solely of
ASCII letters: the special expansions ß → "SS", ı → "I", ſ → "S" and the
Latin ligatures ﬀ ﬁ ﬂ ﬃ ﬄ ﬅ ﬆ.  All remaining characters map to
themselves; their real images contain at least one non-ASCII unit (e.g.
ŉ → "ʼN", ǰ → "J̌"), so they fail the `^[A-Z]{3}$` test either way. -/
def jsCharUpper (c : Char) : List Char :=
  if 'a' ≤ c ∧ c ≤ 'z' then [Char.ofNat (c.toNat - 32)]
  else if c = 'ä' then ['Ä']
  else if c = 'ö' then ['Ö']
  else if c = 'ü' then ['Ü']
  else if c = 'ß' then ['S', 'S']
  else if c = 'ı' then ['I']
  else if c = 'ſ' then ['S']
  else if c = 'ﬀ' then ['F', 'F']
  else if c = 'ﬁ' then ['F', 'I']
  else if c = 'ﬂ' then ['F', 'L']
  else if c = 'ﬃ' then ['F', 'F', 'I']
  else if c = 'ﬄ' then ['F', 'F', 'L']
  else if c = 'ﬅ' then ['S', 'T']
  else if c = 'ﬆ' then ['S', 'T']
  else [c]

/-- JS `String.prototype.toLowerCase`. -/
def jsToLower (s : String) : String :=
  String.mk (s.toList.map jsCharLower).flatten

/-- JS `String.prototype.toUpperCase`. -/
def jsToUpper (s : String) : String :=
  String.mk (s.toList.map jsCharUpper).flatten

/-- The characters removed by JS `trim`: the full ECMAScript WhiteSpace
and LineTerminator sets (tab, LF, VT, FF, CR, space, NBSP, ZWNBSP, the
Unicode space separators, LS, PS). -/
def isWsChar (c : Char) : Bool :=
  c.toNat == 0x09 || c.toNat == 0x0A || c.toNat == 0x0B || c.toNat == 0x0C ||
  c.toNat == 0x0D || c.toNat == 0x20 || c.toNat == 0xA0 || c.toNat == 0x1680 ||
  (0x2000 ≤ c.toNat && c.toNat ≤ 0x200A) || c.toNat == 0x2028 ||
  c.toNat == 0x2029 || c.toNat == 0x202F || c.toNat == 0x205F ||
  c.toNat == 0x3000 || c.toNat == 0xFEFF

/-- JS `String.prototype.trim`. -/
def jsTrim (s : String) : String :=
  String.mk (((s.toList.dropWhile isWsChar).reverse.dropWhile isWsChar).reverse)

/-- Does `l` start with `pre`? -/
def startsWithL : List Char → List Char → Bool
  | [], _ => true
  | _ :: _, [] => false
  | a :: as, b :: bs => a == b && startsWithL as bs

/-- Does `sub` occur as a contiguous run inside `l`? -/
def substrL (sub : List Char) : List Char → Bool
  | [] => sub.isEmpty
  | c :: rest => startsWithL sub (c :: rest) || substrL sub rest

/-- JS `s.includes(sub)`. -/
def jsIncludes (s sub : String) : Bool :=
  substrL sub.toList s.toList

/-- Lookup over the OWN entries of an object literal in source order
(the own-property part of `tbl[key]`; the prototype chain is added by
`jsPropLookup`, and `Object.entries` iteration sees own entries only). -/
def tableLookup : List (String × String) → String → Option String
  | [], _ => none
  | (k, v) :: rest, key => if k == key then some v else tableLookup rest key

/-- A JS runtime value read from a string-valued object literal: either a
string, or an inherited `Object.prototype` member (a function, or the
`Object.prototype` object itself for `__proto__`) that leaked through the
prototype chain.  `fn name` records which member it is. -/
inductive JsVal where
  | str (s : String)
  | fn (name : String)
deriving DecidableEq

/-- JS truthiness of a `JsVal`: every string but the empty one is truthy;
functions and objects are always truthy. -/
def jsValTruthy : JsVal → Bool
  | .str s => !(s == "")
  | .fn _ => true

/-- JS truthiness of a possibly-`undefined` value. -/
def jsOptTruthy : Option JsVal → Bool
  | none => false
  | some v => jsValTruthy v

/-- The property names a plain object literal inherits from
`Object.prototype` in V8/Node (including the Annex B accessors). -/
def objectProtoMembers : List String :=
  [ "constructor", "hasOwnProperty", "isPrototypeOf", "propertyIsEnumerable"
  , "toLocaleString", "toString", "valueOf", "__proto__"
  , "__defineGetter__", "__defineSetter__", "__lookupGetter__", "__lookupSetter__" ]

/-- JS property read `tbl[key]` on a string-valued object literal: an own
entry if present, else the inherited `Object.prototype` member for that
name, else `undefined`. -/
def jsPropLookup (tbl : List (String × String)) (key : String) : Option JsVal :=
  match tableLookup tbl key with
  | some v => some (.str v)
  | none => if objectProtoMembers.contains key then some (.fn key) else none

/-- String coercion (template literal / `String(...)`) of a leaked
`Object.prototype` member in V8: native functions stringify to
`function NAME() { [native code] }`, and `__proto__` (the
`Object.prototype` object) to `[object Object]`. -/
def protoMemberString (name : String) : String :=
  if name == "__proto__" then "[object Object]"
  else "function " ++ name ++ "() \x7b [native code] \x7d"

/-- String coercion of a `JsVal`. -/
def jsValString : JsVal → String
  | .str s => s
  | .fn name => protoMemberString name

/-- Is `c` an ASCII decimal digit? -/
def isDigitChar (c : Char) : Bool :=
  '0' ≤ c && c ≤ '9'

/-- Is `c` an ASCII uppercase letter? -/
def isUpperAlpha (c : Char) : Bool :=
  'A' ≤ c && c ≤ 'Z'

/-- Consume `\d+\.\d+` from the front of `l`, returning the remainder. -/
def decNum (l : List Char) : Option (List Char) :=
  match l with
  | c :: _ =>
    if isDigitChar c then
      match l.dropWhile isDigitChar with
      | '.' :: rest =>
        match rest with
        | d :: _ => if isDigitChar d then some (rest.dropWhile isDigitChar) else none
        | [] => none
      | _ => none
    else none
  | [] => none

/-- The regex `/^\d+\.\d+,\d+\.\d+$/` used by `resolveLocation` to detect a
decimal coordinate pair. -/
def coordPairTest (s : String) : Bool :=
  match decNum s.toList with
  | some (',' :: rest) =>
    match decNum rest with
    | some [] => true
    | _ => false
  | _ => false

/-- The regex `/^[A-Z]{3}$/` used by `getAirportCode`. -/
def threeUpperTest (s : String) : Bool :=
  match s.toList with
  | [a, b, c] => isUpperAlpha a && isUpperAlpha b && isUpperAlpha c
  | _ => false

/-- The regex `/^\d{7,8}$/` used by the departures endpoint to recognise a
numeric station ID. -/
def stationIdTest (s : String) : Bool :=
  (s.toList.length == 7 || s.toList.length == 8) && s.toList.all isDigitChar

/-- Does this runtime value consist of exactly three uppercase ASCII
letters?  (A leaked function or object is not such a value.) -/
def jsValThreeUpper : JsVal → Bool
  | .str s => threeUpperTest s
  | .fn _ => false

/-- JS truthiness test `!x` for an optional string: `null`/`undefined`
(`none`) and the empty string are falsy. -/
def optFalsy : Option String → Bool
  | none => true
  | some s => s == ""

/-- `Math.round (num / den)` for integer `num` and positive even `den`:
`⌊num/den + 1/2⌋ = ⌊(num + den/2) / den⌋`. -/
def mathRoundDiv (num den : Int) : Int :=
  Int.fdiv (num + den / 2) den

/-- Result of an awaited call that may throw, carrying the thrown message. -/
inductive Res (α : Type) where
  | ok (value : α)
  | err (msg : String)
deriving DecidableEq

/-! ## Static lookup tables (from the source) -/

/-- `CITY_COORDS` from `src/pages/api/connections.ts`: German city name
(lower-case, with ASCII-transliterated aliases) to "lat,lon" string. -/
def CITY_COORDS : List (String × String) :=
  [ ("berlin", "52.5200,13.4050")
  , ("hamburg", "53.5511,9.9937")
  , ("münchen", "48.1351,11.5820")
  , ("muenchen", "48.1351,11.5820")
  , ("köln", "50.9375,6.9603")
  , ("koeln", "50.9375,6.9603")
  , ("frankfurt", "50.1109,8.6821")
  , ("düsseldorf", "51.2277,6.7735")
  , ("duesseldorf", "51.2277,6.7735")
  , ("stuttgart", "48.7758,9.1829")
  , ("dortmund", "51.5136,7.4653")
  , ("essen", "51.4556,7.0116")
  , ("leipzig", "51.3397,12.3731")
  , ("dresden", "51.0504,13.7373")
  , ("hannover", "52.3759,9.7320")
  , ("nürnberg", "49.4521,11.0767")
  , ("nuernberg", "49.4521,11.0767")
  , ("bremen", "53.0793,8.8017") ]

/-- `GERMAN_AIRPORTS` from `src/lib/amadeus-flights.ts`: city name (umlaut
spelling, capitalised) to IATA code. -/
def GERMAN_AIRPORTS : List (String × String) :=
  [ ("Berlin", "BER")
  , ("Frankfurt", "FRA")
  , ("München", "MUC")
  , ("Hamburg", "HAM")
  , ("Düsseldorf", "DUS")
  , ("Köln", "CGN")
  , ("Stuttgart", "STR")
  , ("Hannover", "HAJ")
  , ("Nürnberg", "NUE")
  , ("Leipzig", "LEJ")
  , ("Dresden", "DRS")
  , ("Bremen", "BRE") ]

/-! ## Flight client: `getAirportCode` (`src/lib/amadeus-flights.ts`) -/

/-- The partial-match loop of `getAirportCode`: scan `GERMAN_AIRPORTS` in
source order and return the code of the first entry whose lower-cased name
contains the normalised input or is contained in it. -/
def partialLookup (normalized : String) : List (String × String) → Option String
  | [] => none
  | (name, code) :: rest =>
    if jsIncludes (jsToLower name) normalized || jsIncludes normalized (jsToLower name) then
      some code
    else partialLookup normalized rest

/-- `getAirportCode` from `src/lib/amadeus-flights.ts`: if the property
read `GERMAN_AIRPORTS[city]` is truthy, return it (this also returns
inherited `Object.prototype` members for their property names); else
case-insensitive substring match in either direction over the own entries
(`Object.entries`); else accept an input whose JS-uppercased form matches
`^[A-Z]{3}$` as a literal IATA code; else absent. -/
def getAirportCode (city : String) : Option JsVal :=
  if jsOptTruthy (jsPropLookup GERMAN_AIRPORTS city) then jsPropLookup GERMAN_AIRPORTS city
  else
    let normalized := jsToLower city
    match partialLookup normalized GERMAN_AIRPORTS with
    | some code => some (.str code)
    | none =>
      if threeUpperTest (jsToUpper city) then some (.str (jsToUpper city))
      else none

/-! ## Connections endpoint (`src/pages/api/connections.ts`) -/

/-- Outcome of `resolveLocation`: a coordinate string, an inherited
`Object.prototype` member leaked through the truthy `CITY_COORDS` property
read (e.g. for input "constructor"), or the thrown "Unbekannte Stadt"
error. -/
inductive ResolveResult where
  | coords (c : String)
  | protoLeak (name : String)
  | unknown (msg : String)
deriving DecidableEq

/-- The error message `resolveLocation` throws. -/
def unknownCityMsg (input : String) : String :=
  "Unbekannte Stadt: " ++ input ++ ". Bitte Koordinaten angeben."

/-- `resolveLocation` from `src/pages/api/connections.ts`: pass a decimal
coordinate pair through unchanged; else return the property read
`CITY_COORDS[normalized]` if truthy (which also yields inherited
`Object.prototype` members, e.g. for "constructor" or "__proto__"); else
throw. -/
def resolveLocation (input : String) : ResolveResult :=
  let normalized := jsTrim (jsToLower input)
  if coordPairTest input then .coords input
  else
    match jsPropLookup CITY_COORDS normalized with
    | some (.str v) => if v == "" then .unknown (unknownCityMsg input) else .coords v
    | some (.fn name) => .protoLeak name
    | none => .unknown (unknownCityMsg input)

/-! ## Rail client: ephemeral cache (`src/lib/db-transport.ts`) -/

/-- One entry of the in-memory cache `Map`: payload plus absolute expiry
timestamp (ms). -/
structure CacheEntry (α : Type) where
  data : α
  expires : Int
deriving DecidableEq

/-- The cache `Map<string, {data, expires}>`, as an insertion-ordered
association list. -/
abbrev CacheMap (α : Type) := List (String × CacheEntry α)

/-- JS `Map.prototype.get`. -/
def cacheGet {α : Type} : CacheMap α → String → Option (CacheEntry α)
  | [], _ => none
  | (k, e) :: rest, key => if k == key then some e else cacheGet rest key

/-- JS `Map.prototype.set`: replace the binding in place if the key is
present, otherwise append. -/
def cacheSet {α : Type} : CacheMap α → String → CacheEntry α → CacheMap α
  | [], key, e => [(key, e)]
  | (k, e0) :: rest, key, e =>
    if k == key then (key, e) :: rest else (k, e0) :: cacheSet rest key e

/-- Result of the raw `fetch` inside `fetchWithCache`: a parsed JSON body,
or a non-success HTTP status with its status text. -/
inductive FetchOutcome (α : Type) where
  | ok (body : α)
  | httpError (status : Nat) (statusText : String)
deriving DecidableEq

/-- The cache-miss path of `fetchWithCache`: issue the outbound fetch,
throw on a non-success status, otherwise store the body under the URL with
expiry `now + ttl` and return it.  The `Bool` in the result records that
an outbound fetch was issued. -/
def fetchAndStore {α : Type} (c : CacheMap α) (now : Int) (url : String) (ttl : Int)
    (doFetch : String → FetchOutcome α) : Res (α × CacheMap α × Bool) :=
  match doFetch url with
  | .httpError st stx => .err ("DB API Error: " ++ toString st ++ " " ++ stx)
  | .ok data => .ok (data, cacheSet c url ⟨data, now + ttl⟩, true)

/-- `fetchWithCache` from `src/lib/db-transport.ts`, in explicit
state-passing form: `c` is the cache, `now` the current time, `doFetch`
the outbound HTTP call.  A cached entry is used only while
`expires > now`; otherwise the miss path runs. -/
def fetchWithCache {α : Type} (c : CacheMap α) (now : Int) (url : String) (ttl : Int)
    (doFetch : String → FetchOutcome α) : Res (α × CacheMap α × Bool) :=
  match cacheGet c url with
  | some cached =>
    if cached.expires > now then .ok (cached.data, c, false)
    else fetchAndStore c now url ttl doFetch
  | none => fetchAndStore c now url ttl doFetch

/-! ## Rail client: FPTF data types (`src/lib/db-transport.ts`)

Timestamps (`departure`, `arrival`, `when`, `plannedWhen`) are the epoch
milliseconds of the ISO strings the provider sends; `string | null`
fields are `Option String`. -/

/-- FPTF `Stop` (fields the modelled endpoints use: `location` and
`products` are carried opaquely by the departures handler and are not
read by any claim). -/
structure Stop where
  id : String
  name : String
deriving DecidableEq

/-- FPTF `Line` (fields read by the endpoints). -/
structure Line where
  id : String
  name : String
  mode : String
  product : String
deriving DecidableEq

/-- FPTF journey `Leg`. -/
structure Leg where
  origin : Stop
  destination : Stop
  departure : Int
  plannedDeparture : Int
  departureDelay : Option Int
  arrival : Int
  plannedArrival : Int
  arrivalDelay : Option Int
  departurePlatform : Option String
  arrivalPlatform : Option String
  line : Option Line
  direction : Option String
  walking : Bool
  distance : Option Int
deriving DecidableEq

/-- FPTF `Journey` (the `price.amount` float is out of the claims' scope
and modelled as an integer amount). -/
structure Journey where
  legs : List Leg
  refreshToken : Option String
  price : Option (Int × String)
deriving DecidableEq

/-- A remark attached to a departure. -/
structure Remark where
  type : String
  text : Option String
  summary : Option String
deriving DecidableEq

/-- FPTF `Departure` as returned by the provider. -/
structure Departure where
  tripId : String
  direction : String
  line : Option Line
  when : Option Int
  plannedWhen : Int
  delay : Option Int
  platform : Option String
  plannedPlatform : Option String
  remarks : Option (List Remark)
deriving DecidableEq

/-- Provider response for a departures request. -/
structure DeparturesResponse where
  departures : List Departure
  realtimeDataUpdatedAt : Option Int
deriving DecidableEq

/-! ## Rail client: helper functions (`src/lib/db-transport.ts`) -/

/-- `formatDelay`: empty string for `null`/`undefined`/`0`, otherwise the
delay rounded to whole minutes with a `+` prefix when positive. -/
def formatDelay : Option Int → String
  | none => ""
  | some delaySeconds =>
    if delaySeconds = 0 then ""
    else
      let minutes := mathRoundDiv delaySeconds 60
      if minutes > 0 then "+" ++ toString minutes ++ " min"
      else toString minutes ++ " min"

/-- `getJourneyDuration`: 0 for an empty journey, otherwise the wall-clock
difference between the last leg's arrival and the first leg's departure,
rounded to whole minutes. -/
def getJourneyDuration (journey : Journey) : Int :=
  match journey.legs with
  | [] => 0
  | firstLeg :: rest =>
    let lastLeg := (firstLeg :: rest).getLast (List.cons_ne_nil firstLeg rest)
    mathRoundDiv (lastLeg.arrival - firstLeg.departure) 60000

/-- `getTransferCount`: non-walking legs minus one, floored at 0. -/
def getTransferCount (journey : Journey) : Int :=
  let transportLegs := journey.legs.filter fun leg => !leg.walking
  max 0 ((transportLegs.length : Int) - 1)

/-- The `icons` object literal inside `getProductIcon`. -/
def productIcons : List (String × String) :=
  [ ("nationalExpress", "ICE"), ("national", "IC"), ("regionalExp", "RE")
  , ("regional", "RB"), ("suburban", "S"), ("subway", "U"), ("tram", "Tram")
  , ("bus", "Bus"), ("ferry", "Fähre"), ("taxi", "Taxi") ]

/-- `getProductIcon`: `icons[product] || product` — a truthy property read
wins (including an inherited `Object.prototype` member for its name, e.g.
product "toString"), otherwise the raw product string. -/
def getProductIcon (product : String) : JsVal :=
  match jsPropLookup productIcons product with
  | some v => if jsValTruthy v then v else .str product
  | none => .str product

/-! ## `GET /api/connections` handler (`src/pages/api/connections.ts`) -/

/-- Observable outcome of a `/api/connections` request: HTTP status, error
message (if any), and whether the outbound MOTIS call was issued. -/
structure ConnResult where
  status : Nat
  errorMsg : Option String
  outboundCalled : Bool
deriving DecidableEq

/-- The string a successfully resolved value interpolates to in the MOTIS
URL template literal (the `.unknown` case never reaches the template). -/
def resolvedString : ResolveResult → String
  | .coords c => c
  | .protoLeak name => protoMemberString name
  | .unknown _ => ""

/-- The MOTIS plan URL built by the handler. -/
def motisPlanUrl (fromCoords toCoords dateTime : String) : String :=
  "https://europe.motis-project.de/api/v1/plan?fromPlace=" ++ fromCoords ++
    "&toPlace=" ++ toCoords ++ "&time=" ++ dateTime ++ "&arriveBy=false"

/-- The `GET` handler of `src/pages/api/connections.ts`.  `today` is the
date part of `new Date().toISOString()`; `upstream` is the MOTIS fetch
(its payload transformation is not read by any claim, so the body is
opaque).  Any error thrown inside the `try` block — including the
"Unbekannte Stadt" error of `resolveLocation` — is caught and returned
as HTTP 500 with the thrown message.  The string a successfully resolved
value interpolates to in the MOTIS URL template literal is
`resolvedString` (the `.unknown` case has already thrown and never
reaches the template). -/
def connectionsGET (fromP toP dateP timeP : Option String) (today : String)
    (upstream : String → Res Unit) : ConnResult :=
  let date := match dateP with | some d => if d == "" then today else d | none => today
  let time := match timeP with | some t => if t == "" then "10:00" else t | none => "10:00"
  if optFalsy fromP || optFalsy toP then
    ⟨400, some "Parameter \x22from\x22 und \x22to\x22 sind erforderlich", false⟩
  else
    match resolveLocation (fromP.getD ""), resolveLocation (toP.getD "") with
    | .unknown e, _ => ⟨500, some e, false⟩
    | _, .unknown e => ⟨500, some e, false⟩
    | fromRes, toRes =>
      let dateTime := date ++ "T" ++ time ++ ":00Z"
      match upstream (motisPlanUrl (resolvedString fromRes) (resolvedString toRes) dateTime) with
      | .err e => ⟨500, some e, true⟩
      | .ok _ => ⟨200, none, true⟩

/-- An input whose lower-cased trimmed form is neither a decimal
coordinate pair, nor an own key of `CITY_COORDS`, nor an
`Object.prototype` property name: exactly the inputs on which
`resolveLocation` throws (the prototype names, e.g. "constructor" and
"__proto__", yield an inherited truthy member and do NOT throw). -/
def unresolvableCity (s : String) : Prop :=
  coordPairTest s = false ∧ jsPropLookup CITY_COORDS (jsTrim (jsToLower s)) = none

instance (s : String) : Decidable (unresolvableCity s) := by
  unfold unresolvableCity; infer_instance

/-! ## `GET /api/flights/search` handler (`src/pages/api/flights/search.ts`) -/

/-- Departure/arrival point of a mock offer.  The airport field holds the
runtime value the handler passed in (typed `string` in TS, but a leaked
`Object.prototype` member can reach it unchecked). -/
structure MockEndpoint where
  time : String
  airport : JsVal
deriving DecidableEq

/-- One synthetic offer of `getMockFlights`. -/
structure MockFlight where
  id : String
  price : Int
  currency : String
  departure : MockEndpoint
  arrival : MockEndpoint
  duration : String
  durationMinutes : Nat
  stops : Nat
  airline : String
  airlineCode : String
  flightNumber : String
  stopover : Option String
deriving DecidableEq

/-- The body `getMockFlights` returns. -/
structure MockFlightsResponse where
  flights : List MockFlight
  mock : Bool
  message : String
deriving DecidableEq

/-- `getMockFlights` from `src/pages/api/flights/search.ts`.  `rnd` models
the sampled `Math.floor(Math.random() * 150)`, so `basePrice = rnd + 50`;
the airport parameters are the runtime values received from the caller. -/
def getMockFlights (fromCode toCode : JsVal) (date : String) (rnd : Int) : MockFlightsResponse :=
  let basePrice := rnd + 50
  { flights :=
      [ { id := "mock-1", price := basePrice, currency := "EUR"
        , departure := ⟨date ++ "T08:30:00", fromCode⟩
        , arrival := ⟨date ++ "T10:15:00", toCode⟩
        , duration := "1h 45m", durationMinutes := 105, stops := 0
        , airline := "Lufthansa", airlineCode := "LH", flightNumber := "LH 123"
        , stopover := none }
      , { id := "mock-2", price := basePrice - 20, currency := "EUR"
        , departure := ⟨date ++ "T12:00:00", fromCode⟩
        , arrival := ⟨date ++ "T14:30:00", toCode⟩
        , duration := "2h 30m", durationMinutes := 150, stops := 1
        , airline := "Eurowings", airlineCode := "EW", flightNumber := "EW 456"
        , stopover := some "DUS" }
      , { id := "mock-3", price := basePrice + 30, currency := "EUR"
        , departure := ⟨date ++ "T18:45:00", fromCode⟩
        , arrival := ⟨date ++ "T20:20:00", toCode⟩
        , duration := "1h 35m", durationMinutes := 95, stops := 0
        , airline := "Lufthansa", airlineCode := "LH", flightNumber := "LH 789"
        , stopover := none } ]
  , mock := true
  , message := "Amadeus API not configured. Showing example data." }

/-- `isAmadeusConfigured`: both credential environment variables are set
and non-empty (`!!(id && secret)`). -/
def isAmadeusConfigured (clientId clientSecret : Option String) : Bool :=
  !(optFalsy clientId) && !(optFalsy clientSecret)

/-- Body variants a `/api/flights/search` request can produce (the live
transformation is not read by any claim, so its body is opaque). -/
inductive FlightsOutcome where
  | badRequest (msg : String)
  | okMock (resp : MockFlightsResponse)
  | okLive
  | serverError (msg : String)
deriving DecidableEq

/-- Observable outcome of a `/api/flights/search` request. -/
structure FlightsResult where
  status : Nat
  outcome : FlightsOutcome
  providerCalled : Bool
deriving DecidableEq

/-- The `GET` handler of `src/pages/api/flights/search.ts`.  `live` is the
result of the `searchFlights` provider call; on a thrown error whose
message contains "credentials" the handler degrades to mock data.  The
`if (!originCode)` guards are JS truthiness tests on the `getAirportCode`
result (`jsOptTruthy`); past a guard the value is known present, which
`getD` merely unwraps. -/
def flightsSearchGET (clientId clientSecret : Option String)
    (fromP toP dateP : Option String) (rnd : Int) (live : Res Unit) : FlightsResult :=
  if optFalsy fromP || optFalsy toP || optFalsy dateP then
    ⟨400, .badRequest "Parameters \x22from\x22, \x22to\x22, and \x22date\x22 are required", false⟩
  else
    let fromS := fromP.getD ""
    let toS := toP.getD ""
    let date := dateP.getD ""
    if jsOptTruthy (getAirportCode fromS) = false then
      ⟨400, .badRequest ("Unknown origin airport: " ++ fromS ++ ". Use IATA code (e.g., FRA, MUC)."), false⟩
    else if jsOptTruthy (getAirportCode toS) = false then
      ⟨400, .badRequest ("Unknown destination airport: " ++ toS ++ ". Use IATA code (e.g., FRA, MUC)."), false⟩
    else
      let originCode := (getAirportCode fromS).getD (.str "")
      let destCode := (getAirportCode toS).getD (.str "")
      if !(isAmadeusConfigured clientId clientSecret) then
        ⟨200, .okMock (getMockFlights originCode destCode date rnd), false⟩
      else
        match live with
        | .ok _ => ⟨200, .okLive, true⟩
        | .err msg =>
          if jsIncludes msg "credentials" then
            ⟨200, .okMock (getMockFlights originCode destCode date rnd), true⟩
          else ⟨500, .serverError "Failed to search flights", true⟩

/-! ## `GET /api/transport/departures` handler
(`src/pages/api/transport/departures.ts`) -/

/-- One transformed departure as sent to the frontend. -/
structure DepOut where
  time : Option Int
  plannedTime : Int
  delay : String
  delayMinutes : Int
  line : Option String
  product : Option String
  productIcon : JsVal
  direction : String
  platform : Option String
  plannedPlatform : Option String
  platformChanged : Bool
  cancelled : Bool
  remarks : Option (List (Option String))
deriving DecidableEq

/-- JS `a || b` on optional strings (`r.summary || r.text`). -/
def jsOrStr (a b : Option String) : Option String :=
  match a with
  | some s => if s == "" then b else some s
  | none => b

/-- The per-departure transformation inside the departures handler. -/
def transformDeparture (dep : Departure) : DepOut :=
  { time := dep.when
  , plannedTime := dep.plannedWhen
  , delay := formatDelay dep.delay
  , delayMinutes :=
      match dep.delay with
      | none => 0
      | some d => if d = 0 then 0 else mathRoundDiv d 60
  , line := dep.line.map Line.name
  , product := dep.line.map Line.product
  , productIcon := getProductIcon ((dep.line.map Line.product).getD "")
  , direction := dep.direction
  , platform := dep.platform
  , plannedPlatform := dep.plannedPlatform
  , platformChanged := dep.platform != dep.plannedPlatform && dep.plannedPlatform != none
  , cancelled := dep.when == none
  , remarks :=
      dep.remarks.map fun rs =>
        (rs.filter fun r => r.type == "warning" || r.type == "status").map
          fun r => jsOrStr r.summary r.text }

/-- Success body of a `/api/transport/departures` request. -/
structure DepSuccess where
  stationId : String
  stationName : String
  departures : List DepOut
  updatedAt : Option Int
deriving DecidableEq

/-- Observable outcome of a `/api/transport/departures` request, tagged by
HTTP status. -/
inductive DepResult where
  | badRequest (msg : String)
  | notFound (msg : String)
  | okResp (resp : DepSuccess)
  | serverError (msg : String)
deriving DecidableEq

/-- The shared tail of the handler: call `getDepartures` with the clamped
window and result count and transform the response. -/
def departuresFetch (stationId stationName : String) (duration results : Int)
    (getDeps : String → Int → Int → Res DeparturesResponse) : DepResult :=
  match getDeps stationId (min duration 720) (min results 50) with
  | .err _ => .serverError "Failed to fetch departures"
  | .ok resp =>
    .okResp ⟨stationId, stationName, resp.departures.map transformDeparture,
      resp.realtimeDataUpdatedAt⟩

/-- The `GET` handler of `src/pages/api/transport/departures.ts`.
`duration` and `results` are the already-parsed integer query parameters
(defaults 60 and 20); `searchLoc` is the `searchLocations` client call
(query plus result limit) and `getDeps` the `getDepartures` client call.
A station token that is not a 7–8 digit numeric ID is resolved via station
search taking the top result; an empty search result is a 404. -/
def departuresGET (stationP : Option String) (duration results : Int)
    (searchLoc : String → Nat → Res (List Stop))
    (getDeps : String → Int → Int → Res DeparturesResponse) : DepResult :=
  if optFalsy stationP then .badRequest "Parameter \x22station\x22 is required"
  else
    let station := stationP.getD ""
    if stationIdTest station then
      departuresFetch station station duration results getDeps
    else
      match searchLoc station 1 with
      | .err _ => .serverError "Failed to fetch departures"
      | .ok [] => .notFound ("Station not found: " ++ station)
      | .ok (s0 :: _) => departuresFetch s0.id s0.name duration results getDeps

/-! ## Concrete fixtures used by witness theorems -/

/-- A walking leg (as the journey planner returns for transfers on foot). -/
def walkLegS : Leg :=
  { origin := ⟨"s1", "A"⟩, destination := ⟨"s2", "B"⟩
  , departure := 0, plannedDeparture := 0, departureDelay := none
  , arrival := 300000, plannedArrival := 300000, arrivalDelay := none
  , departurePlatform := none, arrivalPlatform := none
  , line := none, direction := none, walking := true, distance := some 400 }

/-- A train leg. -/
def trainLegS : Leg :=
  { origin := ⟨"s2", "B"⟩, destination := ⟨"s3", "C"⟩
  , departure := 300000, plannedDeparture := 300000, departureDelay := some 0
  , arrival := 3600000, plannedArrival := 3600000, arrivalDelay := some 0
  , departurePlatform := some "4", arrivalPlatform := some "7"
  , line := some ⟨"re-1", "RE 1", "train", "regionalExp"⟩
  , direction := some "C", walking := false, distance := none }

/-- A two-leg journey: departs at 0 ms, arrives at 3,600,000 ms. -/
def sampleJourneyS : Journey := ⟨[walkLegS, trainLegS], none, none⟩

/-- A departure whose actual platform differs from the planned one. -/
def depChangedS : Departure :=
  { tripId := "t1", direction := "Hamburg"
  , line := some ⟨"ice-1", "ICE 100", "train", "nationalExpress"⟩
  , when := some 120000, plannedWhen := 0, delay := some 120
  , platform := some "7", plannedPlatform := some "5"
  , remarks := some [⟨"warning", some "w", none⟩, ⟨"hint", some "h", none⟩] }

/-- A departure on its planned platform. -/
def depSameS : Departure :=
  { tripId := "t2", direction := "München"
  , line := some ⟨"re-2", "RE 2", "train", "regional"⟩
  , when := some 0, plannedWhen := 0, delay := some 0
  , platform := some "3", plannedPlatform := some "3"
  , remarks := none }

/-- A provider departures response with the two sample departures. -/
def sampleDepsRespS : DeparturesResponse :=
  ⟨[depChangedS, depSameS], some 1700000⟩

/-- Station-search oracle resolving every query to Berlin Hbf. -/
def wSearchS : String → Nat → Res (List Stop) :=
  fun _ _ => .ok [⟨"8011160", "Berlin Hbf"⟩]

/-- Departures oracle returning the sample response. -/
def wDepsS : String → Int → Int → Res DeparturesResponse :=
  fun _ _ _ => .ok sampleDepsRespS

/-- The umlaut/ASCII spelling pairs among the supported city names of
`CITY_COORDS`. -/
def umlautAsciiCityPairs : List (String × String) :=
  [ ("münchen", "muenchen"), ("köln", "koeln")
  , ("düsseldorf", "duesseldorf"), ("nürnberg", "nuernberg") ]

/-- ASCII-transliterated spellings of the umlaut city names of
`GERMAN_AIRPORTS` (which itself contains only umlaut spellings). -/
def airportAsciiVariants : List String :=
  ["Muenchen", "Koeln", "Duesseldorf", "Nuernberg"]

/-! ## Helper lemmas -/

theorem append_ne_empty_right (s t : String) (h : t ≠ "") : s ++ t ≠ "" := by
  intro hc
  have hlen := congrArg String.length hc
  rw [String.length_append] at hlen
  have h0 : String.length "" = 0 := rfl
  rw [h0] at hlen
  have ht : t.length = 0 := by omega
  apply h
  cases t with
  | mk d =>
    cases d with
    | nil => rfl
    | cons a l => simp [String.length, List.length] at ht

theorem tableLookup_mem {tbl : List (String × String)} {k v : String}
    (h : tableLookup tbl k = some v) : (k, v) ∈ tbl := by
  induction tbl with
  | nil => simp [tableLookup] at h
  | cons p rest ih =>
    obtain ⟨k0, v0⟩ := p
    unfold tableLookup at h
    split at h
    · next heq =>
      obtain rfl : v0 = v := Option.some.inj h
      have : k0 = k := by simpa using heq
      subst this
      exact List.mem_cons_self _ _
    · exact List.mem_cons_of_mem _ (ih h)

theorem partialLookup_mem {n : String} {tbl : List (String × String)} {v : String}
    (h : partialLookup n tbl = some v) : ∃ k, (k, v) ∈ tbl := by
  induction tbl with
  | nil => simp [partialLookup] at h
  | cons p rest ih =>
    obtain ⟨k0, v0⟩ := p
    unfold partialLookup at h
    split at h
    · obtain rfl : v0 = v := Option.some.inj h
      exact ⟨k0, List.mem_cons_self _ _⟩
    · obtain ⟨k, hk⟩ := ih h
      exact ⟨k, List.mem_cons_of_mem _ hk⟩

theorem cacheGet_cacheSet_self {α : Type} (c : CacheMap α) (k : String) (e : CacheEntry α) :
    cacheGet (cacheSet c k e) k = some e := by
  induction c with
  | nil => simp [cacheSet, cacheGet]
  | cons p rest ih =>
    obtain ⟨k0, e0⟩ := p
    unfold cacheSet
    split
    · simp [cacheGet]
    · next hne => simpa [cacheGet, hne] using ih

theorem threeUpperTest_length {s : String} (h : threeUpperTest s = true) :
    s.data.length = 3 := by
  cases s with
  | mk d =>
    unfold threeUpperTest at h
    cases d with
    | nil => simp [String.toList] at h
    | cons a d1 =>
      cases d1 with
      | nil => simp [String.toList] at h
      | cons b d2 =>
        cases d2 with
        | nil => simp [String.toList] at h
        | cons c3 d3 =>
          cases d3 with
          | nil => rfl
          | cons e d4 => simp [String.toList] at h

theorem jsPropLookup_str {tbl : List (String × String)} {k v : String}
    (h : jsPropLookup tbl k = some (.str v)) : tableLookup tbl k = some v := by
  unfold jsPropLookup at h
  rcases ht : tableLookup tbl k with _ | w
  · rw [ht] at h
    by_cases hcon : objectProtoMembers.contains k = true
    · rw [if_pos hcon] at h
      exact absurd h (by simp)
    · rw [if_neg hcon] at h
      exact absurd h (by simp)
  · rw [ht] at h
    simp only [Option.some.injEq, JsVal.str.injEq] at h
    rw [h]

theorem jsPropLookup_fn {tbl : List (String × String)} {k n : String}
    (h : jsPropLookup tbl k = some (.fn n)) :
    n = k ∧ tableLookup tbl k = none ∧ objectProtoMembers.contains k = true := by
  unfold jsPropLookup at h
  rcases ht : tableLookup tbl k with _ | w
  · rw [ht] at h
    by_cases hcon : objectProtoMembers.contains k = true
    · rw [if_pos hcon] at h
      simp only [Option.some.injEq, JsVal.fn.injEq] at h
      exact ⟨h.symm, rfl, hcon⟩
    · rw [if_neg hcon] at h
      exact absurd h (by simp)
  · rw [ht] at h
    simp at h

theorem resolveLocation_unknown {s : String} (h : unresolvableCity s) :
    resolveLocation s = .unknown ("Unbekannte Stadt: " ++ s ++ ". Bitte Koordinaten angeben.") := by
  obtain ⟨h1, h2⟩ := h
  simp [resolveLocation, unknownCityMsg, h1, h2]

theorem resolveLocation_resolves {s : String} (h : ¬ unresolvableCity s) :
    (∃ c, resolveLocation s = .coords c) ∨ (∃ n, resolveLocation s = .protoLeak n) := by
  unfold unresolvableCity at h
  by_cases hc : coordPairTest s = true
  · exact Or.inl ⟨s, by simp [resolveLocation, hc]⟩
  · have hc2 : coordPairTest s = false := by simpa using hc
    rcases ho : jsPropLookup CITY_COORDS (jsTrim (jsToLower s)) with _ | v
    · exact absurd ⟨hc2, ho⟩ h
    · rcases v with c | n
      · have hvals : ∀ p ∈ CITY_COORDS, p.2 ≠ "" := by decide
        have hne : c ≠ "" := hvals _ (tableLookup_mem (jsPropLookup_str ho))
        exact Or.inl ⟨c, by simp [resolveLocation, hc2, ho, hne]⟩
      · exact Or.inr ⟨n, by simp [resolveLocation, hc2, ho]⟩

theorem getAirportCodeStr_threeUpper (s c : String)
    (h : getAirportCode s = some (.str c)) :
    threeUpperTest c = true ∧ c.data.length = 3 := by
  have hall : ∀ p ∈ GERMAN_AIRPORTS, threeUpperTest p.2 = true := by decide
  unfold getAirportCode at h
  split at h
  · have htab := jsPropLookup_str h
    have := hall _ (tableLookup_mem htab)
    exact ⟨this, threeUpperTest_length this⟩
  · simp only [] at h
    rcases hp : partialLookup (jsToLower s) GERMAN_AIRPORTS with _ | code
    · rw [hp] at h
      by_cases h3 : threeUpperTest (jsToUpper s) = true
      · simp only [h3, if_true, Option.some.injEq, JsVal.str.injEq] at h
        subst h
        exact ⟨h3, threeUpperTest_length h3⟩
      · simp [h3] at h
    · rw [hp] at h
      simp only [Option.some.injEq, JsVal.str.injEq] at h
      subst h
      obtain ⟨k, hk⟩ := partialLookup_mem hp
      have := hall _ hk
      exact ⟨this, threeUpperTest_length this⟩

theorem getAirportCode_fnCases (s n : String)
    (h : getAirportCode s = some (.fn n)) :
    n = s ∧ objectProtoMembers.contains s = true := by
  unfold getAirportCode at h
  split at h
  · obtain ⟨hn, _, hcon⟩ := jsPropLookup_fn h
    exact ⟨hn, hcon⟩
  · simp only [] at h
    rcases hp : partialLookup (jsToLower s) GERMAN_AIRPORTS with _ | code
    · rw [hp] at h
      by_cases h3 : threeUpperTest (jsToUpper s) = true
      · simp [h3] at h
      · simp [h3] at h
    · rw [hp] at h
      simp at h

/-! ## Claim theorems -/

/-- C3 counterexample: the claimed "else absent" clause is false of the
program.  "toString" is no table key, matches no table key as a substring
and is not a 3-letter token, yet the property read
`GERMAN_AIRPORTS['toString']` yields the inherited truthy
`Object.prototype.toString`, which the first branch returns; and "aß",
a 2-character token, returns "ASS" because JS uppercases ß to "SS". -/
theorem getAirportCode_resolution_order_counterexample :
    tableLookup GERMAN_AIRPORTS "toString" = none ∧
    partialLookup (jsToLower "toString") GERMAN_AIRPORTS = none ∧
    threeUpperTest (jsToUpper "toString") = false ∧
    getAirportCode "toString" = some (.fn "toString") ∧
    ("aß" : String).data.length = 2 ∧
    getAirportCode "aß" = some (.str "ASS") := by
  decide

/-- C3 amended: `getAirportCode` resolves its input in this order: a
truthy property read on the fixed German-airport table — an exact own-key
match, or an inherited `Object.prototype` member returned as-is for its
property name; else case-insensitive substring match in either direction
over the table's own entries; else, if the input's JS-uppercased form
matches `^[A-Z]{3}$` (which 3-letter ASCII tokens do, but also e.g. "aß"
via ß → "SS"), that uppercased form as a literal IATA code; else absent.
In particular `getAirportCode "muc"` and `getAirportCode "München"` both
return `"MUC"`, `getAirportCode "XYZ"` returns `"XYZ"`, and
`getAirportCode "Nonexistentcity"` is absent. -/
theorem getAirportCode_resolution_order :
    getAirportCode "muc" = some (.str "MUC") ∧
    getAirportCode "München" = some (.str "MUC") ∧
    getAirportCode "XYZ" = some (.str "XYZ") ∧
    getAirportCode "Nonexistentcity" = none ∧
    (∀ s c, tableLookup GERMAN_AIRPORTS s = some c → getAirportCode s = some (.str c)) ∧
    (∀ s, tableLookup GERMAN_AIRPORTS s = none → objectProtoMembers.contains s = true →
      getAirportCode s = some (.fn s)) ∧
    (∀ s c, jsPropLookup GERMAN_AIRPORTS s = none →
      partialLookup (jsToLower s) GERMAN_AIRPORTS = some c →
      getAirportCode s = some (.str c)) ∧
    (∀ s, jsPropLookup GERMAN_AIRPORTS s = none →
      partialLookup (jsToLower s) GERMAN_AIRPORTS = none →
      getAirportCode s =
        if threeUpperTest (jsToUpper s) then some (.str (jsToUpper s)) else none) := by
  refine ⟨by decide, by decide, by decide, by decide, ?_, ?_, ?_, ?_⟩
  · intro s c h
    have hne : c ≠ "" := (show ∀ p ∈ GERMAN_AIRPORTS, p.2 ≠ "" by decide) _ (tableLookup_mem h)
    have hexact : jsPropLookup GERMAN_AIRPORTS s = some (.str c) := by
      unfold jsPropLookup
      rw [h]
    simp [getAirportCode, hexact, jsOptTruthy, jsValTruthy, hne]
  · intro s h1 h2
    have hexact : jsPropLookup GERMAN_AIRPORTS s = some (.fn s) := by
      unfold jsPropLookup
      rw [h1, if_pos h2]
    simp [getAirportCode, hexact, jsOptTruthy, jsValTruthy]
  · intro s c h1 h2
    simp [getAirportCode, h1, jsOptTruthy, h2]
  · intro s h1 h2
    simp [getAirportCode, h1, jsOptTruthy, h2]

/-- C3 witness: the own-entry branch at "Hamburg" and the inherited-member
branch at "valueOf". -/
theorem getAirportCode_resolution_order_witness :
    getAirportCode "Hamburg" = some (.str "HAM") ∧
    getAirportCode "valueOf" = some (.fn "valueOf") :=
  ⟨getAirportCode_resolution_order.2.2.2.2.1 "Hamburg" "HAM" (by decide),
   getAirportCode_resolution_order.2.2.2.2.2.1 "valueOf" (by decide) (by decide)⟩

/-- C8 counterexample: the claimed invariant is false of the program —
`getAirportCode "toString"` returns the inherited
`Object.prototype.toString` via the truthy first branch, a value that is
not a string of three uppercase ASCII letters. -/
theorem getAirportCode_three_upper_counterexample :
    getAirportCode "toString" = some (.fn "toString") ∧
    jsValThreeUpper (JsVal.fn "toString") = false := by
  decide

/-- C8 amended: whenever `getAirportCode` returns a string value, that
string consists of exactly three uppercase ASCII letters (it matches
`^[A-Z]{3}$`): every table entry is such a code and the literal-IATA
branch only returns an uppercased input that passed that pattern.  The
only non-string values it can return are the inherited `Object.prototype`
members, returned exactly for their own property names. -/
theorem getAirportCode_three_upper :
    (∀ s c, getAirportCode s = some (.str c) →
      threeUpperTest c = true ∧ c.data.length = 3) ∧
    (∀ s n, getAirportCode s = some (.fn n) →
      n = s ∧ objectProtoMembers.contains s = true) :=
  ⟨getAirportCodeStr_threeUpper, getAirportCode_fnCases⟩

/-- C8 witness: the string invariant at the table entry "Berlin" and the
prototype-member case at "toString". -/
theorem getAirportCode_three_upper_witness :
    (threeUpperTest "BER" = true ∧ ("BER" : String).data.length = 3) ∧
    ("toString" = "toString" ∧ objectProtoMembers.contains "toString" = true) :=
  ⟨getAirportCode_three_upper.1 "Berlin" "BER" (by decide),
   getAirportCode_three_upper.2 "toString" "toString" (by decide)⟩

/-- C9: `formatDelay` returns the empty string only for 0, `null` and
`undefined`; a nonzero delay whose value rounds to 0 minutes (e.g. 20 or
−20 seconds) yields `"0 min"` rather than the empty string; and in general
the result is the delay rounded to whole minutes with a `+` prefix exactly
when the rounded value is positive. -/
theorem formatDelay_spec :
    (∀ x : Option Int, formatDelay x = "" ↔ x = none ∨ x = some 0) ∧
    formatDelay (some 20) = "0 min" ∧
    formatDelay (some (-20)) = "0 min" ∧
    (∀ d : Int, d ≠ 0 → mathRoundDiv d 60 = 0 → formatDelay (some d) = "0 min") ∧
    (∀ d : Int, d ≠ 0 → formatDelay (some d) =
      (if mathRoundDiv d 60 > 0 then "+" else "") ++ toString (mathRoundDiv d 60) ++ " min") := by
  have hmin : (" min" : String) ≠ "" := by decide
  refine ⟨?_, by decide, by decide, ?_, ?_⟩
  · intro x
    constructor
    · intro h
      rcases x with _ | d
      · exact Or.inl rfl
      · refine Or.inr ?_
        by_cases hd : d = 0
        · rw [hd]
        · exfalso
          simp only [formatDelay, if_neg hd] at h
          split at h
          · exact append_ne_empty_right _ _ hmin h
          · exact append_ne_empty_right _ _ hmin h
    · rintro (rfl | rfl) <;> simp [formatDelay]
  · intro d h1 h2
    simp only [formatDelay, if_neg h1, h2]
    decide
  · intro d h1
    simp only [formatDelay, if_neg h1]
    by_cases hpos : mathRoundDiv d 60 > 0
    · simp [hpos]
    · simp [hpos]

/-- C9 witness: a 45-second delay rounds to one minute and is rendered
with the `+` prefix. -/
theorem formatDelay_spec_witness : formatDelay (some 45) = "+1 min" := by
  rw [formatDelay_spec.2.2.2.2 45 (by decide)]
  decide

/-- C10: `getJourneyDuration` is total over all journeys — for an empty
legs list it returns 0 rather than reading a missing first/last element,
and for every non-empty journey it returns the difference between the last
leg's arrival and the first leg's departure rounded to whole minutes. -/
theorem getJourneyDuration_total :
    getJourneyDuration ⟨[], none, none⟩ = 0 ∧
    ∀ (j : Journey) (h : j.legs ≠ []),
      getJourneyDuration j =
        mathRoundDiv ((j.legs.getLast h).arrival - (j.legs.head h).departure) 60000 := by
  constructor
  · rfl
  · intro j h
    obtain ⟨legs, rt, pr⟩ := j
    cases legs with
    | nil => exact absurd rfl h
    | cons a rest => rfl

/-- C10 witness: the non-empty case at the sample two-leg journey
(0 ms departure to 3,600,000 ms arrival is 60 minutes). -/
theorem getJourneyDuration_total_witness : getJourneyDuration sampleJourneyS = 60 := by
  rw [getJourneyDuration_total.2 sampleJourneyS (by decide)]
  decide

/-- C5: for every journey, `getTransferCount` returns `max 0 (n − 1)`
where `n` is the number of legs whose walking flag is not set; on a
journey with legs [walk, train, walk, train] it returns 1, and on a
journey consisting only of walking legs (or with no legs) it returns 0. -/
theorem getTransferCount_spec :
    (∀ j : Journey,
      getTransferCount j = max 0 (((j.legs.countP fun l => !l.walking) : Int) - 1)) ∧
    getTransferCount ⟨[walkLegS, trainLegS, walkLegS, trainLegS], none, none⟩ = 1 ∧
    (∀ j : Journey, (∀ l ∈ j.legs, l.walking = true) → getTransferCount j = 0) ∧
    getTransferCount ⟨[], none, none⟩ = 0 := by
  refine ⟨?_, by decide, ?_, by decide⟩
  · intro j
    simp [getTransferCount, List.countP_eq_length_filter]
  · intro j hall
    have hfil : j.legs.filter (fun l => !l.walking) = [] := by
      rw [List.filter_eq_nil_iff]
      intro l hl
      simp [hall l hl]
    simp [getTransferCount, hfil]

/-- C5 witness: a journey of two walking legs has no transfers. -/
theorem getTransferCount_spec_witness :
    getTransferCount ⟨[walkLegS, walkLegS], none, none⟩ = 0 :=
  getTransferCount_spec.2.2.1 ⟨[walkLegS, walkLegS], none, none⟩ (by decide)

/-- C2 counterexample: the airport table contains only the umlaut
spellings, so `getAirportCode` resolves "München" but not its umlaut-ASCII
variant "Muenchen" — the two inputs do not return the same IATA code. -/
theorem cityLookup_umlaut_variant_counterexample :
    getAirportCode "München" = some (.str "MUC") ∧
    getAirportCode "Muenchen" = none ∧
    getAirportCode "Muenchen" ≠ getAirportCode "München" := by
  decide

/-- C2 amended: the `/api/connections` coordinate lookup returns the same
coordinate pair for umlaut and ASCII spellings and is invariant under
letter case and surrounding whitespace for every supported name, resolving
each of them; `getAirportCode` is likewise invariant under letter case and
surrounding whitespace for every supported city name of its table and
resolves each of them, but the ASCII umlaut variants (e.g. "Muenchen")
are absent from it and resolve to nothing. -/
theorem cityLookup_case_whitespace_amended :
    (umlautAsciiCityPairs.all fun p =>
      decide (resolveLocation p.1 = resolveLocation p.2)) = true ∧
    ((CITY_COORDS.map Prod.fst).all fun s =>
      decide (resolveLocation (jsToUpper s) = resolveLocation s) &&
      decide (resolveLocation (jsToLower s) = resolveLocation s) &&
      decide (resolveLocation ("  " ++ s ++ " ") = resolveLocation s) &&
      (match resolveLocation s with
       | .coords _ => true | .protoLeak _ => false | .unknown _ => false)) = true ∧
    ((GERMAN_AIRPORTS.map Prod.fst).all fun s =>
      decide (getAirportCode (jsToUpper s) = getAirportCode s) &&
      decide (getAirportCode (jsToLower s) = getAirportCode s) &&
      decide (getAirportCode (" " ++ s ++ "  ") = getAirportCode s) &&
      (getAirportCode s).isSome) = true ∧
    (airportAsciiVariants.all fun s => decide (getAirportCode s = none)) = true := by
  refine ⟨by decide, by decide, by decide, by decide⟩

/-- C4: after a write of payload `P` under key `K` with TTL `T` at time
`t0`, a read of `K` at any time strictly before `t0 + T` returns the
identical payload without issuing a new outbound fetch, and a read of `K`
at or after `t0 + T` behaves exactly as if `K` were absent: the miss path
runs, and on a successful fetch its result is re-stored under `K`. -/
theorem fetchWithCache_roundtrip {α : Type} (c : CacheMap α) (K : String) (P : α)
    (T t0 t ttl : Int) (doFetch : String → FetchOutcome α) :
    (t < t0 + T →
      fetchWithCache (cacheSet c K ⟨P, t0 + T⟩) t K ttl doFetch =
        .ok (P, cacheSet c K ⟨P, t0 + T⟩, false)) ∧
    (t0 + T ≤ t →
      fetchWithCache (cacheSet c K ⟨P, t0 + T⟩) t K ttl doFetch =
        fetchAndStore (cacheSet c K ⟨P, t0 + T⟩) t K ttl doFetch ∧
      ∀ d, doFetch K = .ok d →
        fetchWithCache (cacheSet c K ⟨P, t0 + T⟩) t K ttl doFetch =
          .ok (d, cacheSet (cacheSet c K ⟨P, t0 + T⟩) K ⟨d, t + ttl⟩, true)) := by
  constructor
  · intro hlt
    unfold fetchWithCache
    rw [cacheGet_cacheSet_self]
    simp only []
    rw [if_pos (by simpa using hlt)]
  · intro hge
    have hmiss : fetchWithCache (cacheSet c K ⟨P, t0 + T⟩) t K ttl doFetch =
        fetchAndStore (cacheSet c K ⟨P, t0 + T⟩) t K ttl doFetch := by
      unfold fetchWithCache
      rw [cacheGet_cacheSet_self]
      simp only []
      rw [if_neg (by simp; omega)]
    refine ⟨hmiss, ?_⟩
    intro d hd
    rw [hmiss]
    unfold fetchAndStore
    rw [hd]

/-- C4 witness: payload 42 written at time 0 with TTL 60 is returned
without a fetch at time 30; at time 60 the entry is expired, a fresh fetch
(returning 7) is issued and re-stored. -/
theorem fetchWithCache_roundtrip_witness :
    fetchWithCache (cacheSet ([] : CacheMap Nat) "k" ⟨42, 0 + 60⟩) 30 "k" 60 (fun _ => .ok 7) =
      .ok (42, cacheSet [] "k" ⟨42, 0 + 60⟩, false) ∧
    fetchWithCache (cacheSet ([] : CacheMap Nat) "k" ⟨42, 0 + 60⟩) 60 "k" 60 (fun _ => .ok 7) =
      .ok (7, cacheSet (cacheSet [] "k" ⟨42, 0 + 60⟩) "k" ⟨7, 60 + 60⟩, true) :=
  ⟨(fetchWithCache_roundtrip [] "k" 42 60 0 30 60 (fun _ => .ok 7)).1 (by decide),
   ((fetchWithCache_roundtrip [] "k" 42 60 0 60 60 (fun _ => .ok 7)).2 (by decide)).2 7 rfl⟩

/-- C1 counterexample: for the request `from=Atlantis&to=Berlin` (both
parameters present, "Atlantis" neither a coordinate pair nor a city key
nor an inherited property name) the endpoint responds with HTTP 500, not
400 as claimed. -/
theorem connections_unresolvable_city_claim400_counterexample :
    coordPairTest "Atlantis" = false ∧
    jsPropLookup CITY_COORDS (jsTrim (jsToLower "Atlantis")) = none ∧
    (connectionsGET (some "Atlantis") (some "Berlin") none none "2026-01-01"
      (fun _ => .ok ())).status = 500 ∧
    (connectionsGET (some "Atlantis") (some "Berlin") none none "2026-01-01"
      (fun _ => .ok ())).status ≠ 400 := by
  decide

/-- C1 amended: for every `GET /api/connections` request in which both
`from` and `to` are present (non-empty) but at least one of them is
neither a decimal coordinate pair, nor a key of the static city table,
nor (after lower-casing and trimming) an `Object.prototype` property
name, the endpoint responds with HTTP 500 (the thrown "Unbekannte Stadt"
error is caught by the generic handler) with a human-readable message
naming the offending input, and no outbound provider call is made.  The
prototype-name exclusion is necessary: an input such as "constructor"
hits an inherited truthy member of `CITY_COORDS`, does not throw, and the
outbound MOTIS call IS issued (final conjunct). -/
theorem connections_unresolvable_city_500 (fromS toS : String) (dateP timeP : Option String)
    (today : String) (upstream : String → Res Unit)
    (hf : fromS ≠ "") (ht : toS ≠ "")
    (h : unresolvableCity fromS ∨ unresolvableCity toS) :
    (connectionsGET (some fromS) (some toS) dateP timeP today upstream).status = 500 ∧
    (connectionsGET (some fromS) (some toS) dateP timeP today upstream).outboundCalled = false ∧
    (∃ bad, (bad = fromS ∨ bad = toS) ∧ unresolvableCity bad ∧
      (connectionsGET (some fromS) (some toS) dateP timeP today upstream).errorMsg =
        some ("Unbekannte Stadt: " ++ bad ++ ". Bitte Koordinaten angeben.")) ∧
    (connectionsGET (some "constructor") (some "Berlin") none none "2026-01-01"
      (fun _ => .ok ())).outboundCalled = true := by
  have hboundary : (connectionsGET (some "constructor") (some "Berlin") none none "2026-01-01"
      (fun _ => .ok ())).outboundCalled = true := by decide
  have hcond : (optFalsy (some fromS) || optFalsy (some toS)) = false := by
    simp [optFalsy, hf, ht]
  have main : (connectionsGET (some fromS) (some toS) dateP timeP today upstream).status = 500 ∧
      (connectionsGET (some fromS) (some toS) dateP timeP today upstream).outboundCalled = false ∧
      ∃ bad, (bad = fromS ∨ bad = toS) ∧ unresolvableCity bad ∧
        (connectionsGET (some fromS) (some toS) dateP timeP today upstream).errorMsg =
          some ("Unbekannte Stadt: " ++ bad ++ ". Bitte Koordinaten angeben.") := by
    by_cases hfu : unresolvableCity fromS
    · have hres := resolveLocation_unknown hfu
      simp only [connectionsGET, hcond, Bool.false_eq_true, if_false, Option.getD_some, hres]
      exact ⟨by trivial, by trivial, fromS, Or.inl rfl, hfu, by trivial⟩
    · have htu : unresolvableCity toS := h.resolve_left hfu
      have hres2 := resolveLocation_unknown htu
      rcases resolveLocation_resolves hfu with ⟨cf, hres⟩ | ⟨nf, hres⟩ <;>
      · simp only [connectionsGET, hcond, Bool.false_eq_true, if_false, Option.getD_some,
          hres, hres2]
        exact ⟨by trivial, by trivial, toS, Or.inr rfl, htu, by trivial⟩
  exact ⟨main.1, main.2.1, main.2.2, hboundary⟩

/-- C1 amended witness: the concrete request `from=Atlantis&to=Berlin`. -/
theorem connections_unresolvable_city_500_witness :
    (connectionsGET (some "Atlantis") (some "Berlin") none none "2026-01-01"
      (fun _ => .ok ())).status = 500 ∧
    (connectionsGET (some "Atlantis") (some "Berlin") none none "2026-01-01"
      (fun _ => .ok ())).outboundCalled = false := by
  have h := connections_unresolvable_city_500 "Atlantis" "Berlin" none none "2026-01-01"
    (fun _ => .ok ()) (by decide) (by decide) (Or.inl (by decide))
  exact ⟨h.1, h.2.1⟩

/-- C6: when the flight-provider credential pair is not configured, every
`GET /api/flights/search` request with resolvable `from` and `to` and a
`date` returns HTTP 200 with `mock: true` and exactly 3 synthetic offers
whose `stops` fields are 0, 1, 0 in that order, without calling the
external provider. -/
theorem flightsSearch_mock_mode (clientId clientSecret : Option String)
    (fromS toS date : String) (rnd : Int) (live : Res Unit)
    (hconf : isAmadeusConfigured clientId clientSecret = false)
    (hf : fromS ≠ "") (ht : toS ≠ "") (hd : date ≠ "")
    (oc dc : String)
    (hoc : getAirportCode fromS = some (.str oc))
    (hdc : getAirportCode toS = some (.str dc)) :
    flightsSearchGET clientId clientSecret (some fromS) (some toS) (some date) rnd live =
      ⟨200, .okMock (getMockFlights (.str oc) (.str dc) date rnd), false⟩ ∧
    (getMockFlights (.str oc) (.str dc) date rnd).mock = true ∧
    (getMockFlights (.str oc) (.str dc) date rnd).flights.length = 3 ∧
    (getMockFlights (.str oc) (.str dc) date rnd).flights.map MockFlight.stops = [0, 1, 0] := by
  have hcond : (optFalsy (some fromS) || optFalsy (some toS) || optFalsy (some date)) = false := by
    simp [optFalsy, hf, ht, hd]
  have hocne : oc ≠ "" := by
    intro he
    subst he
    exact absurd (getAirportCodeStr_threeUpper fromS "" hoc).1 (by decide)
  have hdcne : dc ≠ "" := by
    intro he
    subst he
    exact absurd (getAirportCodeStr_threeUpper toS "" hdc).1 (by decide)
  have hv1 : jsOptTruthy (some (JsVal.str oc)) = true := by
    simp [jsOptTruthy, jsValTruthy, hocne]
  have hv2 : jsOptTruthy (some (JsVal.str dc)) = true := by
    simp [jsOptTruthy, jsValTruthy, hdcne]
  refine ⟨?_, rfl, rfl, rfl⟩
  simp only [flightsSearchGET, hcond, Bool.false_eq_true, if_false, Option.getD_some,
    hoc, hdc, hv1, hv2, hconf, Bool.not_false, if_true, Bool.true_eq_false]

/-- C6 witness: `from=FRA&to=MUC&date=2026-03-01` with no credentials. -/
theorem flightsSearch_mock_mode_witness :
    flightsSearchGET none none (some "FRA") (some "MUC") (some "2026-03-01") 0 (.ok ()) =
      ⟨200, .okMock (getMockFlights (.str "FRA") (.str "MUC") "2026-03-01" 0), false⟩ ∧
    (getMockFlights (.str "FRA") (.str "MUC") "2026-03-01" 0).flights.map MockFlight.stops =
      [0, 1, 0] := by
  have h := flightsSearch_mock_mode none none "FRA" "MUC" "2026-03-01" 0 (.ok ())
    rfl (by decide) (by decide) (by decide) "FRA" "MUC" (by decide) (by decide)
  exact ⟨h.1, h.2.2.2⟩

/-- C7: for every `GET /api/transport/departures` request whose `station`
value is not a 7–8 digit numeric token, the station is resolved via
station search taking the top result (an empty search result yields HTTP
404 with a message naming the token), and each departure in the success
response has `platformChanged = true` exactly when the actual platform
differs from the planned platform and the planned platform is non-null. -/
theorem departures_station_resolution (station : String) (duration results : Int)
    (searchLoc : String → Nat → Res (List Stop))
    (getDeps : String → Int → Int → Res DeparturesResponse)
    (hne : station ≠ "") (hid : stationIdTest station = false) :
    (searchLoc station 1 = .ok [] →
      departuresGET (some station) duration results searchLoc getDeps =
        .notFound ("Station not found: " ++ station)) ∧
    (∀ s0 rest resp, searchLoc station 1 = .ok (s0 :: rest) →
      getDeps s0.id (min duration 720) (min results 50) = .ok resp →
      departuresGET (some station) duration results searchLoc getDeps =
        .okResp ⟨s0.id, s0.name, resp.departures.map transformDeparture,
          resp.realtimeDataUpdatedAt⟩) ∧
    (∀ dep : Departure,
      (transformDeparture dep).platformChanged = true ↔
        (dep.platform ≠ dep.plannedPlatform ∧ dep.plannedPlatform ≠ none)) := by
  have hcond : optFalsy (some station) = false := by simp [optFalsy, hne]
  refine ⟨?_, ?_, ?_⟩
  · intro hs
    simp only [departuresGET, hcond, Bool.false_eq_true, if_false, Option.getD_some, hid, hs]
  · intro s0 rest resp hs hd
    simp only [departuresGET, hcond, Bool.false_eq_true, if_false, Option.getD_some, hid, hs,
      departuresFetch, hd]
  · intro dep
    show (dep.platform != dep.plannedPlatform && dep.plannedPlatform != none) = true ↔ _
    rw [Bool.and_eq_true, bne_iff_ne, bne_iff_ne]

/-- C7 witness: `station=Berlin` resolves via search to Berlin Hbf; in the
response the departure with actual platform 7 vs planned 5 has
`platformChanged = true` and the one on its planned platform does not. -/
theorem departures_station_resolution_witness :
    departuresGET (some "Berlin") 60 20 wSearchS wDepsS =
      .okResp ⟨"8011160", "Berlin Hbf", sampleDepsRespS.departures.map transformDeparture,
        sampleDepsRespS.realtimeDataUpdatedAt⟩ ∧
    (transformDeparture depChangedS).platformChanged = true ∧
    ¬ (transformDeparture depSameS).platformChanged = true := by
  have h := departures_station_resolution "Berlin" 60 20 wSearchS wDepsS (by decide) (by decide)
  refine ⟨h.2.1 ⟨"8011160", "Berlin Hbf"⟩ [] sampleDepsRespS rfl rfl, ?_, ?_⟩
  · exact (h.2.2 depChangedS).mpr ⟨by decide, by decide⟩
  · intro hc
    have := (h.2.2 depSameS).mp hc
    exact this.1 (by decide)

end DZT
